import Mathlib

/-!
Verification of the pose-based behavior analysis core
(`ai-service/behavior_analysis.py` and `ai-service/gait_detection.py`).

Numbers: the Python code computes with IEEE floats; the embedding uses exact
rationals (`ℚ`) for all arithmetic the code performs with `+ - * /`,
comparisons and `min`/`max`.  The Euclidean norm `np.linalg.norm` and the
transcendental body angle (`arccos`) are irrational-valued; wherever a
function's result genuinely depends on them they are threaded as explicit
function parameters, and the theorems quantify over those parameters (so every
result proved holds for the actual Euclidean norm in particular).  Where a
single norm is compared against a positive constant the embedding uses the
squared comparison, with a bridging lemma (`dist2_lt_iff_sqrt_lt`) showing it
is equivalent to the source's `np.linalg.norm (v) < c`.  Concrete scenarios
use `axis_norm`, which provably agrees with the Euclidean norm on the
axis-aligned displacement vectors those scenarios produce
(`axis_norm_eq_sqrt_of_snd_eq_zero`).
-/

/-- One pose keypoint: `(x, y, confidence)`, a row of the YOLO `(17, 3)`
keypoint array. -/
structure Kp where
  x : ℚ
  y : ℚ
  c : ℚ
deriving DecidableEq, Repr

/-- A keypoint frame: the 17-slot keypoint list for one detected person. -/
abbrev Frame := List Kp

/-- Keypoint access `kp[idx]`; the input contract guarantees 17 slots, a
missing slot reads as an all-zero keypoint. -/
def kpAt (f : Frame) (i : ℕ) : Kp := f.getD i ⟨0, 0, 0⟩

/-- Mean of a list of rationals (`np.mean`; 0 on the empty list, which the
sources guard against wherever the value is used). -/
def mean_list (l : List ℚ) : ℚ := if l = [] then 0 else l.sum / l.length

/-- Population variance of a list (`np.var`). -/
def var_list (l : List ℚ) : ℚ :=
  mean_list (l.map (fun v => (v - mean_list l) ^ 2))

/-- Maximum of a list (`np.max` over a nonempty array; default 0). -/
def max_list (l : List ℚ) : ℚ := l.foldr max (l.headD 0)

/-- Minimum of a list (`np.min` over a nonempty array; default 0). -/
def min_list (l : List ℚ) : ℚ := l.foldr min (l.headD 0)

/-- Python tail slice `l[-n:]`. -/
def lastN (l : List α) (n : ℕ) : List α := l.drop (l.length - n)

/-- Squared Euclidean norm of a 2-vector; `np.linalg.norm(v) ** 2`. -/
def dist2 (v : ℚ × ℚ) : ℚ := v.1 ^ 2 + v.2 ^ 2

/-- For a positive bound, comparing the squared norm against the squared bound
is exactly the source's `np.linalg.norm(v) < c`. -/
theorem dist2_lt_iff_sqrt_lt (v : ℚ × ℚ) (c : ℚ) (hc : 0 < c) :
    dist2 v < c ^ 2 ↔ Real.sqrt ((dist2 v : ℚ) : ℝ) < (c : ℝ) := by
  rw [Real.sqrt_lt' (by exact_mod_cast hc)]
  constructor <;> intro h <;> exact_mod_cast h

/-- Norm stand-in used by the concrete scenarios: on axis-aligned vectors it
coincides with the Euclidean norm (see `axis_norm_eq_sqrt_of_snd_eq_zero`);
every general theorem quantifies over the norm, so nothing depends on the
values this returns elsewhere. -/
def axis_norm (v : ℚ × ℚ) : ℚ :=
  if v.2 = 0 then |v.1| else if v.1 = 0 then |v.2| else 0

/-- On horizontally-aligned displacements `axis_norm` is the Euclidean norm. -/
theorem axis_norm_eq_sqrt_of_snd_eq_zero (v : ℚ × ℚ) (h : v.2 = 0) :
    (axis_norm v : ℝ) = Real.sqrt ((v.1 : ℝ) ^ 2 + (v.2 : ℝ) ^ 2) := by
  unfold axis_norm
  rw [if_pos h, h]
  push_cast
  rw [show ((v.1 : ℝ) ^ 2 + 0 ^ 2) = (v.1 : ℝ) ^ 2 by ring, Real.sqrt_sq_eq_abs]

/-! ## `_keypoints_to_bbox` and bbox helpers (behavior_analysis.py 844-868) -/

/-- `_keypoints_to_bbox`: filter keypoints with confidence strictly above 0.5;
an empty filter yields the fixed default box `[0, 0, 100, 100]` (no padding),
otherwise the min/max extents padded by 20. -/
def keypoints_to_bbox (kps : List Kp) : List ℚ :=
  match kps.filter (fun k => decide ((0.5 : ℚ) < k.c)) with
  | [] => [0, 0, 100, 100]
  | v :: vs =>
    let xs := (v :: vs).map Kp.x
    let ys := (v :: vs).map Kp.y
    [min_list xs - 20, min_list ys - 20, max_list xs + 20, max_list ys + 20]

/-- `_get_center_point`: center of a `[x1, y1, x2, y2]` box. -/
def get_center_point (b : List ℚ) : ℚ × ℚ :=
  ((b.getD 0 0 + b.getD 2 0) / 2, (b.getD 1 0 + b.getD 3 0) / 2)

/-- `_get_current_location`: bbox center of a frame's keypoints (the pipeline
stores `bbox = _keypoints_to_bbox(keypoints)` in each pose record). -/
def get_current_location (f : Frame) : ℚ × ℚ :=
  get_center_point (keypoints_to_bbox f)

/-- Claim C9: if no keypoint has confidence above the 0.5 floor, the
keypoints-to-bbox conversion returns the fixed default box `[0, 0, 100, 100]`
with no padding applied, so every bbox-based detector sees the entity at the
constant center `(50, 50)`. -/
theorem keypoints_to_bbox_default (kps : List Kp)
    (h : ∀ k ∈ kps, k.c ≤ 0.5) :
    keypoints_to_bbox kps = [0, 0, 100, 100] ∧
    get_current_location kps = (50, 50) := by
  have hf : kps.filter (fun k => decide ((0.5 : ℚ) < k.c)) = [] := by
    rw [List.filter_eq_nil_iff]
    intro k hk
    simpa using not_lt.mpr (h k hk)
  constructor
  · rw [keypoints_to_bbox, hf]
  · rw [get_current_location, keypoints_to_bbox, hf]
    norm_num [get_center_point]

/-- Witness for C9: a concrete low-confidence 17-keypoint frame maps to the
default box and constant center. -/
theorem keypoints_to_bbox_default_witness :
    keypoints_to_bbox (List.replicate 17 ⟨250, 330, 0.3⟩) = [0, 0, 100, 100] ∧
    get_current_location (List.replicate 17 ⟨250, 330, 0.3⟩) = (50, 50) :=
  keypoints_to_bbox_default (List.replicate 17 ⟨250, 330, 0.3⟩)
    (by intro k hk; rw [List.eq_of_mem_replicate hk]; norm_num)

/-! ## Threat levels and `_calculate_overall_threat_level`
(behavior_analysis.py 13-17, 922-936) -/

/-- The `ThreatLevel` enum. -/
inductive ThreatLevel
  | low
  | medium
  | high
  | critical
deriving DecidableEq, Repr

/-- Ordinal rank of a threat level under the total order
critical > high > medium > low. -/
def threat_rank : ThreatLevel → ℕ
  | .low => 0
  | .medium => 1
  | .high => 2
  | .critical => 3

/-- `_calculate_overall_threat_level`: empty batch gives low, otherwise the
membership chain critical / high / medium / fallback low over the batch's
`threat_level` values. -/
def calculate_overall_threat_level (levels : List ThreatLevel) : ThreatLevel :=
  if levels = [] then .low
  else if ThreatLevel.critical ∈ levels then .critical
  else if ThreatLevel.high ∈ levels then .high
  else if ThreatLevel.medium ∈ levels then .medium
  else .low

/-- Claim C3: the aggregated overall threat level is an upper bound of every
emitted event's level under the total order critical > high > medium > low, it
is attained by some event whenever the batch is nonempty, and an empty batch
yields low -- i.e. the overall level is exactly the maximum level of the
batch. -/
theorem overall_threat_level_is_max (levels : List ThreatLevel) :
    (∀ l ∈ levels, threat_rank l ≤ threat_rank (calculate_overall_threat_level levels)) ∧
    (levels ≠ [] → calculate_overall_threat_level levels ∈ levels) ∧
    (levels = [] → calculate_overall_threat_level levels = .low) := by
  by_cases hnil : levels = []
  · subst hnil
    refine ⟨by simp, by simp, fun _ => rfl⟩
  · by_cases hc : ThreatLevel.critical ∈ levels
    · have hv : calculate_overall_threat_level levels = .critical := by
        simp [calculate_overall_threat_level, hnil, hc]
      refine ⟨fun l _ => ?_, fun _ => by rw [hv]; exact hc, fun h => absurd h hnil⟩
      rw [hv]; cases l <;> simp [threat_rank]
    · by_cases hh : ThreatLevel.high ∈ levels
      · have hv : calculate_overall_threat_level levels = .high := by
          simp [calculate_overall_threat_level, hnil, hc, hh]
        refine ⟨fun l hl => ?_, fun _ => by rw [hv]; exact hh, fun h => absurd h hnil⟩
        rw [hv]; cases l
        · simp [threat_rank]
        · simp [threat_rank]
        · simp [threat_rank]
        · exact absurd hl hc
      · by_cases hm : ThreatLevel.medium ∈ levels
        · have hv : calculate_overall_threat_level levels = .medium := by
            simp [calculate_overall_threat_level, hnil, hc, hh, hm]
          refine ⟨fun l hl => ?_, fun _ => by rw [hv]; exact hm, fun h => absurd h hnil⟩
          rw [hv]; cases l
          · simp [threat_rank]
          · simp [threat_rank]
          · exact absurd hl hh
          · exact absurd hl hc
        · have hv : calculate_overall_threat_level levels = .low := by
            simp [calculate_overall_threat_level, hnil, hc, hh, hm]
          refine ⟨fun l hl => ?_, fun _ => ?_, fun h => absurd h hnil⟩
          · rw [hv]; cases l
            · simp [threat_rank]
            · exact absurd hl hm
            · exact absurd hl hh
            · exact absurd hl hc
          · rw [hv]
            obtain ⟨x, hx⟩ := List.exists_mem_of_ne_nil levels hnil
            cases x
            · exact hx
            · exact absurd hx hm
            · exact absurd hx hh
            · exact absurd hx hc

/-- Witness for C3: on the concrete batch `[medium, high, medium]` the overall
level is high, which belongs to the batch and bounds every member. -/
theorem overall_threat_level_is_max_witness :
    calculate_overall_threat_level [.medium, .high, .medium] ∈
      [ThreatLevel.medium, .high, .medium] :=
  (overall_threat_level_is_max [.medium, .high, .medium]).2.1 (by simp)

/-! ## Loitering (`_is_loitering`, behavior_analysis.py 348-376, rule 36-45,
event construction 234-244) -/

/-- Bbox centers of each frame of the history (the pipeline stores
`bbox = _keypoints_to_bbox(keypoints)` per pose record, line 176). -/
def positions (h : List Frame) : List (ℚ × ℚ) :=
  h.map (fun f => get_center_point (keypoints_to_bbox f))

/-- Consecutive displacement vectors `positions[i] - positions[i-1]`. -/
def consecutive_diffs (ps : List (ℚ × ℚ)) : List (ℚ × ℚ) :=
  (ps.zip ps.tail).map (fun pq => (pq.2.1 - pq.1.1, pq.2.2 - pq.1.2))

/-- `total_movement`: summed norms of consecutive center displacements; the
norm (`np.linalg.norm`) is threaded as the parameter `nrm`. -/
def total_movement (nrm : ℚ × ℚ → ℚ) (h : List Frame) : ℚ :=
  ((consecutive_diffs (positions h)).map nrm).sum

/-- `avg_movement = total_movement / max(len(positions) - 1, 1)`. -/
def avg_movement (nrm : ℚ × ℚ → ℚ) (h : List Frame) : ℚ :=
  total_movement nrm h / max ((h.length : ℚ) - 1) 1

/-- `total_variance = np.sum(np.var(position_array, axis=0))`: per-axis
population variance of the centers, summed over the two axes. -/
def total_variance (h : List Frame) : ℚ :=
  var_list ((positions h).map Prod.fst) + var_list ((positions h).map Prod.snd)

/-- `_is_loitering`: below `min_duration * 30 = 120 * 30` frames the rule
returns False; otherwise it fires iff the average movement is below the 50 px
movement threshold and the summed positional variance is below the 30
variance threshold. -/
def is_loitering (nrm : ℚ × ℚ → ℚ) (h : List Frame) : Bool :=
  if (h.length : ℚ) < 120 * 30 then false
  else decide (avg_movement nrm h < 50 ∧ total_variance h < 30)

/-- The loitering `BehaviorEvent` (behavior_analysis.py 236-244; the free-form
description and average-location evidence fields are not modelled). -/
structure BehaviorEvt where
  btype : String
  person_id : String
  confidence : ℚ
  duration : ℚ
  threat_level : ThreatLevel
deriving DecidableEq, Repr

/-- The loitering event `_detect_person_behaviors` appends: type "loitering",
confidence 0.85, duration `len(history) / 30`, threat level medium. -/
def loitering_event (pid : String) (h : List Frame) : BehaviorEvt :=
  ⟨"loitering", pid, 0.85, (h.length : ℚ) / 30, .medium⟩

/-- The loitering fragment of `_detect_person_behaviors` (lines 231-244):
histories shorter than 10 frames yield no behaviors at all, otherwise exactly
one loitering event is appended iff `_is_loitering` holds. -/
def loitering_events (nrm : ℚ × ℚ → ℚ) (pid : String) (h : List Frame) :
    List BehaviorEvt :=
  if h.length < 10 then []
  else if is_loitering nrm h then [loitering_event pid h] else []

/-- `_is_loitering` fires iff the window passes the 3600-frame minimum-duration
gate and both statistical thresholds. -/
theorem is_loitering_iff (nrm : ℚ × ℚ → ℚ) (h : List Frame) :
    is_loitering nrm h = true ↔
      ((120 * 30 : ℚ) ≤ h.length ∧ avg_movement nrm h < 50 ∧ total_variance h < 30) := by
  unfold is_loitering
  by_cases hg : (h.length : ℚ) < 120 * 30
  · rw [if_pos hg]
    simp only [Bool.false_eq_true, false_iff]
    rintro ⟨hle, -⟩
    linarith
  · rw [if_neg hg, decide_eq_true_iff]
    push_neg at hg
    simp [hg]

/-- A frame whose 17 keypoints are all confident and pinned at `(240, 360)`;
its bbox center is constant across frames. -/
def confident_frame : Frame := List.replicate 17 ⟨240, 360, 1⟩

/-- Counterexample to claim C1: the spec's end-to-end scenario -- a single
entity whose bbox center is constant (within the claimed ±2 px) with confident
keypoints for 130 frames at 30 fps -- emits NO loitering event: 130 frames is
far below the rule's `min_duration * 30 = 3600`-frame gate, so the claimed
"exactly one loitering BehaviorEvent" is false. -/
theorem loitering_130_frames_no_event :
    loitering_events axis_norm "camera_1_person_0" (List.replicate 130 confident_frame)
      = [] := by
  unfold loitering_events
  rw [if_neg (by simp)]
  have hfalse : is_loitering axis_norm (List.replicate 130 confident_frame) = false := by
    unfold is_loitering
    rw [if_pos (by simp; norm_num)]
  rw [hfalse]
  simp

/-- Claim C1 (amended): for any norm, entity id and history of at least 10
frames, the per-entity analysis emits exactly one loitering BehaviorEvent --
with threat level medium, confidence 0.85 and duration `len/30` seconds -- if
and only if the window has at least `min_duration * 30 = 3600` frames AND
average consecutive-frame displacement is below the movement threshold (50)
AND summed positional variance is below the variance threshold (30).  In
particular a 130-frame stationary window (≈4.33 s) emits nothing. -/
theorem loitering_fires_iff (nrm : ℚ × ℚ → ℚ) (pid : String) (h : List Frame) :
    loitering_events nrm pid h = [loitering_event pid h] ↔
      ((120 * 30 : ℚ) ≤ h.length ∧ avg_movement nrm h < 50 ∧ total_variance h < 30) := by
  unfold loitering_events
  by_cases h10 : h.length < 10
  · rw [if_pos h10]
    have hn : ¬ ((120 * 30 : ℚ) ≤ h.length) := by
      have hq : (h.length : ℚ) < 10 := by exact_mod_cast h10
      push_neg
      linarith
    simp [hn]
  · rw [if_neg h10]
    rcases Bool.eq_false_or_eq_true (is_loitering nrm h) with ht | hf
    · rw [if_pos ht]
      simpa using (is_loitering_iff nrm h).mp ht
    · have hniff := is_loitering_iff nrm h
      rw [hf] at hniff
      simp only [Bool.false_eq_true, false_iff] at hniff
      rw [if_neg (by simp [hf])]
      simp [hniff]

/-! ## Fall detection (`_detect_fall`, behavior_analysis.py 432-504) -/

/-- The dict returned by `_detect_fall` on a detection. -/
structure FallInfo where
  confidence : ℚ
  severity : String
  vertical_velocity : ℚ
  body_angle : ℚ
  location : ℚ × ℚ
deriving DecidableEq, Repr

/-- The fall-indicator counter (lines 480-489): one for vertical velocity
above the 150 px/s threshold, one for body angle above the 45° threshold. -/
def fall_indicators (vv angle : ℚ) : ℕ :=
  (if 150 < vv then 1 else 0) + (if 45 < angle then 1 else 0)

/-- The severity string as left by the sequential updates of lines 481-489:
"minor" initially, "moderate" when the velocity indicator holds, overwritten
by "severe" when the angle indicator holds. -/
def fall_severity (vv angle : ℚ) : String :=
  if 45 < angle then "severe" else if 150 < vv then "moderate" else "minor"

/-- The emission decision of lines 491-500: a fall result iff at least two
indicators, with confidence `min(0.95, 0.6 + indicators * 0.15)`. -/
def fall_decision (vv angle : ℚ) (loc : ℚ × ℚ) : Option FallInfo :=
  if 2 ≤ fall_indicators vv angle then
    some ⟨min 0.95 (0.6 + (fall_indicators vv angle : ℚ) * 0.15),
          fall_severity vv angle, vv, angle, loc⟩
  else none

/-- Ordinal rank of the severity tiers minor < moderate < severe. -/
def severity_rank (s : String) : ℕ :=
  if s = "severe" then 2 else if s = "moderate" then 1 else 0

/-- Hip-midpoint heights over a window: frames whose left (index 11) and
right (index 12) hip confidences are both above 0.5 contribute
`(left_hip_y + right_hip_y) / 2` (lines 447-455). -/
def hip_heights (recent : List Frame) : List ℚ :=
  recent.filterMap (fun f =>
    if (0.5 : ℚ) < (kpAt f 11).c ∧ (0.5 : ℚ) < (kpAt f 12).c
    then some (((kpAt f 11).y + (kpAt f 12).y) / 2) else none)

/-- Number of frames of a window whose two hip keypoints are both above the
0.5 confidence floor. -/
def confident_hip_frames (l : List Frame) : ℕ :=
  (l.filter (fun f =>
    decide ((0.5 : ℚ) < (kpAt f 11).c ∧ (0.5 : ℚ) < (kpAt f 12).c))).length

theorem hip_heights_length (l : List Frame) :
    (hip_heights l).length = confident_hip_frames l := by
  induction l with
  | nil => rfl
  | cons f t ih =>
    by_cases hc : (0.5 : ℚ) < (kpAt f 11).c ∧ (0.5 : ℚ) < (kpAt f 12).c
    · simpa [hip_heights, confident_hip_frames, hc, List.filterMap_cons,
        List.filter_cons] using ih
    · simpa [hip_heights, confident_hip_frames, hc, List.filterMap_cons,
        List.filter_cons] using ih

/-- `_detect_fall`: fewer than 10 frames of history yields None; over the last
10 frames, fewer than 5 confident-hip heights yields None; otherwise the
vertical hip velocity `(hips[-1] - hips[0]) / max(len/30, 0.1)` and the body
angle of the last frame feed the indicator decision.  `_calculate_body_angle`
(arccos-based, lines 888-920) is threaded as the parameter `body_angle_of`;
the source's unused `head_heights` and the self-dividing `ground_proximity`
(line 477, always 1.0 and never read) are not modelled. -/
def detect_fall (body_angle_of : Frame → ℚ) (h : List Frame) : Option FallInfo :=
  if h.length < 10 then none
  else if (hip_heights (lastN h 10)).length < 5 then none
  else fall_decision
    (((hip_heights (lastN h 10)).getLastD 0 - (hip_heights (lastN h 10)).headD 0) /
      max (((hip_heights (lastN h 10)).length : ℚ) / 30) 0.1)
    (body_angle_of ((lastN h 10).getLastD []))
    (get_current_location ((lastN h 10).getLastD []))

/-- Claim C10: whenever fewer than 5 of the last 10 frames carry both hip
keypoints above the 0.5 confidence floor, `_detect_fall` returns no event --
for every possible body-angle function, i.e. regardless of how large the
body-tilt angle (or the derived vertical velocity) would be. -/
theorem detect_fall_none_of_low_hip_confidence (body_angle_of : Frame → ℚ)
    (h : List Frame) (hlow : confident_hip_frames (lastN h 10) < 5) :
    detect_fall body_angle_of h = none := by
  unfold detect_fall
  by_cases h10 : h.length < 10
  · rw [if_pos h10]
  · rw [if_neg h10, if_pos (by rw [hip_heights_length]; exact hlow)]

/-- A frame whose 17 keypoints all have confidence 0. -/
def low_frame : Frame := List.replicate 17 ⟨0, 0, 0⟩

theorem kpAt_replicate (p : Kp) (i : ℕ) (hi : i < 17) :
    kpAt (List.replicate 17 p) i = p := by
  rw [kpAt, List.getD_eq_getElem?_getD, List.getElem?_replicate, if_pos hi]
  rfl

/-- Witness for C10: ten frames of all-zero-confidence keypoints have zero
confident-hip frames, and fall detection returns none even under a huge
body-angle function. -/
theorem detect_fall_none_witness :
    confident_hip_frames (lastN (List.replicate 10 low_frame) 10) < 5 ∧
    detect_fall (fun _ => 1000) (List.replicate 10 low_frame) = none := by
  have hcount : confident_hip_frames (lastN (List.replicate 10 low_frame) 10) < 5 := by
    have hl : lastN (List.replicate 10 low_frame) 10 = List.replicate 10 low_frame := by
      simp [lastN]
    rw [hl]
    unfold confident_hip_frames
    have hf : (List.replicate 10 low_frame).filter (fun f =>
        decide ((0.5 : ℚ) < (kpAt f 11).c ∧ (0.5 : ℚ) < (kpAt f 12).c)) = [] := by
      rw [List.filter_eq_nil_iff]
      intro f hf
      rw [List.eq_of_mem_replicate hf]
      rw [decide_eq_true_iff]
      rintro ⟨h1, -⟩
      rw [low_frame, kpAt_replicate _ 11 (by norm_num)] at h1
      norm_num at h1
    rw [hf]
    norm_num
  exact ⟨hcount, detect_fall_none_of_low_hip_confidence (fun _ => 1000) _ hcount⟩

/-- Counterexample to claim C5: severity is NOT strictly monotonic in the
indicators.  On a window whose body angle is 60° but whose vertical velocity
is 0 (one indicator), severity is already "severe"; making the velocity
indicator true as well (velocity 200) leaves severity at "severe", so adding
the second indicator does not strictly increase the severity tier. -/
theorem fall_severity_not_strictly_monotonic :
    fall_indicators 0 60 = 1 ∧ fall_indicators 200 60 = 2 ∧
    fall_severity 0 60 = "severe" ∧ fall_severity 200 60 = "severe" ∧
    ¬ severity_rank (fall_severity 0 60) < severity_rank (fall_severity 200 60) := by
  norm_num [fall_indicators, fall_severity, severity_rank]

/-- Claim C5 (amended): each true indicator increments the fall-indicator
counter; a fall is emitted iff at least 2 indicators hold, with confidence
`min(0.95, 0.6 + 0.15 * indicators)` and the computed severity.  Emission is
monotone (one indicator never emits, both do).  Severity rises strictly along
minor -> moderate -> severe when the velocity indicator comes first and the
angle indicator is added; but adding the velocity indicator to an angle-only
window leaves severity unchanged at "severe" (severity is only non-strictly
monotone in that direction). -/
theorem fall_indicator_policy (vv a vvHi aHi : ℚ) (loc : ℚ × ℚ)
    (hv : ¬ 150 < vv) (hvHi : 150 < vvHi) (ha : ¬ 45 < a) (haHi : 45 < aHi) :
    (∀ x y : ℚ, (fall_decision x y loc).isSome ↔ 2 ≤ fall_indicators x y) ∧
    (∀ x y : ℚ, ∀ r, fall_decision x y loc = some r →
        r.confidence = min 0.95 (0.6 + (fall_indicators x y : ℚ) * 0.15) ∧
        r.severity = fall_severity x y) ∧
    fall_indicators vv a = 0 ∧ fall_indicators vvHi a = 1 ∧
    fall_indicators vv aHi = 1 ∧ fall_indicators vvHi aHi = 2 ∧
    fall_decision vv a loc = none ∧ fall_decision vvHi a loc = none ∧
    fall_decision vv aHi loc = none ∧ (fall_decision vvHi aHi loc).isSome = true ∧
    severity_rank (fall_severity vv a) < severity_rank (fall_severity vvHi a) ∧
    severity_rank (fall_severity vvHi a) < severity_rank (fall_severity vvHi aHi) ∧
    fall_severity vv aHi = fall_severity vvHi aHi := by
  refine ⟨fun x y => ?_, fun x y r hr => ?_, ?_⟩
  · by_cases h2 : 2 ≤ fall_indicators x y
    · simp [fall_decision, h2]
    · simp [fall_decision, h2]
  · rw [fall_decision] at hr
    by_cases h2 : 2 ≤ fall_indicators x y
    · rw [if_pos h2] at hr
      cases hr
      exact ⟨rfl, rfl⟩
    · rw [if_neg h2] at hr
      cases hr
  · simp [fall_indicators, fall_decision, fall_severity, severity_rank,
      hv, hvHi, ha, haHi]

/-- Witness for C5 (amended claim) at the concrete metrics
`vv = 0, a = 0, vvHi = 200, aHi = 60`. -/
theorem fall_indicator_policy_witness :
    (∀ x y : ℚ, (fall_decision x y (0, 0)).isSome ↔ 2 ≤ fall_indicators x y) ∧
    (∀ x y : ℚ, ∀ r, fall_decision x y (0, 0) = some r →
        r.confidence = min 0.95 (0.6 + (fall_indicators x y : ℚ) * 0.15) ∧
        r.severity = fall_severity x y) ∧
    fall_indicators 0 0 = 0 ∧ fall_indicators 200 0 = 1 ∧
    fall_indicators 0 60 = 1 ∧ fall_indicators 200 60 = 2 ∧
    fall_decision 0 0 (0, 0) = none ∧ fall_decision 200 0 (0, 0) = none ∧
    fall_decision 0 60 (0, 0) = none ∧ (fall_decision 200 60 (0, 0)).isSome = true ∧
    severity_rank (fall_severity 0 0) < severity_rank (fall_severity 200 0) ∧
    severity_rank (fall_severity 200 0) < severity_rank (fall_severity 200 60) ∧
    fall_severity 0 60 = fall_severity 200 60 :=
  fall_indicator_policy 0 0 200 60 (0, 0)
    (by norm_num) (by norm_num) (by norm_num) (by norm_num)

/-! ## Alert gate (`_generate_behavior_alert`, behavior_analysis.py 938-974,
cooldown store 31-32, qualifying filter 197-201) -/

/-- The fields of a detected behavior consumed by the alert gate. -/
structure BehaviorIn where
  btype : String
  person_id : Option String
  threat_level : ThreatLevel
  confidence : ℚ
  description : String
deriving DecidableEq, Repr

/-- The emitted alert (the free-form `location`/`metadata` evidence dict is
not modelled). -/
structure AlertRec where
  id : String
  behavior_type : String
  threat_level : ThreatLevel
  confidence : ℚ
  description : String
  camera_id : String
  store_id : String
  person_id : Option String
  requires_response : Bool
deriving DecidableEq, Repr

/-- `alert_key = f"{type}_{person_id or 'group'}_{camera_id}"`. -/
def alert_key (b : BehaviorIn) (camera_id : String) : String :=
  b.btype ++ "_" ++ b.person_id.getD "group" ++ "_" ++ camera_id

/-- Lookup in the cooldown dictionary (modelled as an association list whose
most recent binding shadows older ones, matching dict assignment). -/
def cd_lookup : List (String × ℚ) → String → Option ℚ
  | [], _ => none
  | (k, t) :: rest, key => if k = key then some t else cd_lookup rest key

/-- The alert dict built at lines 951-968. -/
def mk_alert (b : BehaviorIn) (camera_id store_id : String) (now : ℚ) : AlertRec :=
  { id := "alert_" ++ toString (Rat.floor now) ++ "_" ++ camera_id
    behavior_type := b.btype
    threat_level := b.threat_level
    confidence := b.confidence
    description := b.description
    camera_id := camera_id
    store_id := store_id
    person_id := b.person_id
    requires_response := decide (b.threat_level = .high ∨ b.threat_level = .critical) }

/-- `_generate_behavior_alert`: if the key's recorded timestamp is within the
2-minute (120 s) cooldown, suppress without touching the store; otherwise
record `now` for the key and emit the alert.  Time is in seconds. -/
def generate_behavior_alert (b : BehaviorIn) (camera_id store_id : String) (now : ℚ)
    (cooldown : List (String × ℚ)) : Option AlertRec × List (String × ℚ) :=
  match cd_lookup cooldown (alert_key b camera_id) with
  | some last =>
    if now - last < 120 then (none, cooldown)
    else (some (mk_alert b camera_id store_id now),
          (alert_key b camera_id, now) :: cooldown)
  | none => (some (mk_alert b camera_id store_id now),
             (alert_key b camera_id, now) :: cooldown)

/-- The qualifying filter of `analyze_behavior` lines 197-201: only behaviors
with threat level high or critical reach the gate. -/
def process_alert (b : BehaviorIn) (camera_id store_id : String) (now : ℚ)
    (cooldown : List (String × ℚ)) : Option AlertRec × List (String × ℚ) :=
  if b.threat_level = .high ∨ b.threat_level = .critical
  then generate_behavior_alert b camera_id store_id now cooldown
  else (none, cooldown)

/-- Claim C2: for a fresh key, a qualifying event at `t1` emits an alert and
records `t1`; a second qualifying event with the same key at `t2` within the
cooldown (`t2 - t1 < 120 s`) is suppressed and leaves the store -- including
the recorded timestamp `t1` -- unchanged; a third at `t3` with the cooldown
elapsed (`t3 - t1 ≥ 120 s`) emits a second alert and records `t3`. -/
theorem alert_gate_cooldown (b : BehaviorIn) (cam store : String) (t1 t2 t3 : ℚ)
    (cd0 : List (String × ℚ))
    (hfresh : cd_lookup cd0 (alert_key b cam) = none)
    (hqual : b.threat_level = .high ∨ b.threat_level = .critical)
    (h12 : t2 - t1 < 120) (h13 : 120 ≤ t3 - t1) :
    (process_alert b cam store t1 cd0).1 = some (mk_alert b cam store t1) ∧
    (process_alert b cam store t2 (process_alert b cam store t1 cd0).2).1 = none ∧
    (process_alert b cam store t2 (process_alert b cam store t1 cd0).2).2 =
      (process_alert b cam store t1 cd0).2 ∧
    cd_lookup (process_alert b cam store t2 (process_alert b cam store t1 cd0).2).2
      (alert_key b cam) = some t1 ∧
    (process_alert b cam store t3
      (process_alert b cam store t2 (process_alert b cam store t1 cd0).2).2).1 =
      some (mk_alert b cam store t3) ∧
    cd_lookup (process_alert b cam store t3
      (process_alert b cam store t2 (process_alert b cam store t1 cd0).2).2).2
      (alert_key b cam) = some t3 := by
  have e1 : process_alert b cam store t1 cd0 =
      (some (mk_alert b cam store t1), (alert_key b cam, t1) :: cd0) := by
    unfold process_alert generate_behavior_alert
    rw [if_pos hqual, hfresh]
  have hl1 : cd_lookup ((alert_key b cam, t1) :: cd0) (alert_key b cam) = some t1 := by
    simp [cd_lookup]
  have e2 : process_alert b cam store t2 ((alert_key b cam, t1) :: cd0) =
      (none, (alert_key b cam, t1) :: cd0) := by
    unfold process_alert generate_behavior_alert
    rw [if_pos hqual, hl1]
    simp [h12]
  have e3 : process_alert b cam store t3 ((alert_key b cam, t1) :: cd0) =
      (some (mk_alert b cam store t3),
        (alert_key b cam, t3) :: (alert_key b cam, t1) :: cd0) := by
    unfold process_alert generate_behavior_alert
    rw [if_pos hqual, hl1]
    simp [not_lt.mpr h13]
  rw [e1, e2, e3]
  refine ⟨rfl, rfl, rfl, hl1, rfl, by simp [cd_lookup]⟩

/-- Witness for C2: a concrete high-threat behavior gated at times 0 s, 60 s
and 150 s over an empty cooldown store. -/
theorem alert_gate_cooldown_witness :
    (process_alert ⟨"fighting", some "p0", .high, 0.9, "fight"⟩ "cam1" "s1" 0 []).1 =
      some (mk_alert ⟨"fighting", some "p0", .high, 0.9, "fight"⟩ "cam1" "s1" 0) ∧
    (process_alert ⟨"fighting", some "p0", .high, 0.9, "fight"⟩ "cam1" "s1" 60
      (process_alert ⟨"fighting", some "p0", .high, 0.9, "fight"⟩ "cam1" "s1" 0 []).2).1 =
      none ∧
    (process_alert ⟨"fighting", some "p0", .high, 0.9, "fight"⟩ "cam1" "s1" 60
      (process_alert ⟨"fighting", some "p0", .high, 0.9, "fight"⟩ "cam1" "s1" 0 []).2).2 =
      (process_alert ⟨"fighting", some "p0", .high, 0.9, "fight"⟩ "cam1" "s1" 0 []).2 ∧
    cd_lookup (process_alert ⟨"fighting", some "p0", .high, 0.9, "fight"⟩ "cam1" "s1" 60
      (process_alert ⟨"fighting", some "p0", .high, 0.9, "fight"⟩ "cam1" "s1" 0 []).2).2
      (alert_key ⟨"fighting", some "p0", .high, 0.9, "fight"⟩ "cam1") = some 0 ∧
    (process_alert ⟨"fighting", some "p0", .high, 0.9, "fight"⟩ "cam1" "s1" 150
      (process_alert ⟨"fighting", some "p0", .high, 0.9, "fight"⟩ "cam1" "s1" 60
        (process_alert ⟨"fighting", some "p0", .high, 0.9, "fight"⟩ "cam1" "s1" 0 []).2).2).1 =
      some (mk_alert ⟨"fighting", some "p0", .high, 0.9, "fight"⟩ "cam1" "s1" 150) ∧
    cd_lookup (process_alert ⟨"fighting", some "p0", .high, 0.9, "fight"⟩ "cam1" "s1" 150
      (process_alert ⟨"fighting", some "p0", .high, 0.9, "fight"⟩ "cam1" "s1" 60
        (process_alert ⟨"fighting", some "p0", .high, 0.9, "fight"⟩ "cam1" "s1" 0 []).2).2).2
      (alert_key ⟨"fighting", some "p0", .high, 0.9, "fight"⟩ "cam1") = some 150 :=
  alert_gate_cooldown ⟨"fighting", some "p0", .high, 0.9, "fight"⟩ "cam1" "s1" 0 60 150 []
    rfl (Or.inl rfl) (by norm_num) (by norm_num)

/-! ## Fighting (`_is_fighting`, behavior_analysis.py 378-430, rule 46-56) -/

/-- The upper-body joints used for fighting motion: shoulders, elbows,
wrists. -/
def upper_body_indices : List ℕ := [5, 6, 7, 8, 9, 10]

/-- Inter-frame upper-body motion (lines 397-401): each confidence-gated
joint contributes the norm of its displacement. -/
def frame_motion (nrm : ℚ × ℚ → ℚ) (prev curr : Frame) : ℚ :=
  (upper_body_indices.map (fun idx =>
    if (0.5 : ℚ) < (kpAt prev idx).c ∧ (0.5 : ℚ) < (kpAt curr idx).c
    then nrm ((kpAt curr idx).x - (kpAt prev idx).x,
              (kpAt curr idx).y - (kpAt prev idx).y)
    else 0)).sum

/-- One motion score per consecutive frame pair of the window. -/
def motion_scores (nrm : ℚ × ℚ → ℚ) (recent : List Frame) : List ℚ :=
  (recent.zip recent.tail).map (fun pc => frame_motion nrm pc.1 pc.2)

/-- Keypoints above the 0.5 confidence floor. -/
def confident_kps (f : Frame) : List Kp :=
  f.filter (fun k => decide ((0.5 : ℚ) < k.c))

/-- Centroid of the confident keypoints (line 417). -/
def pose_centroid (f : Frame) : ℚ × ℚ :=
  (mean_list ((confident_kps f).map Kp.x), mean_list ((confident_kps f).map Kp.y))

/-- Per-frame pose "stability" (lines 412-420): frames with more than 8
confident keypoints contribute the variance of each confident keypoint's
distance from the centroid. -/
def pose_stability_scores (nrm : ℚ × ℚ → ℚ) (recent : List Frame) : List ℚ :=
  recent.filterMap (fun f =>
    if 8 < (confident_kps f).length then
      some (var_list ((confident_kps f).map (fun k =>
        nrm (k.x - (pose_centroid f).1, k.y - (pose_centroid f).2))))
    else none)

/-- `pose_instability = np.mean(scores) if scores else 0` (line 422). -/
def pose_instability (nrm : ℚ × ℚ → ℚ) (recent : List Frame) : ℚ :=
  mean_list (pose_stability_scores nrm recent)

/-- `_is_fighting`: below `min_duration * 30 = 90` frames return False; over
the last 90 frames, fire iff mean motion > 200 AND motion variance > 100 AND
pose instability > 500 (all three, lines 424-426). -/
def is_fighting (nrm : ℚ × ℚ → ℚ) (h : List Frame) : Bool :=
  if (h.length : ℚ) < 3 * 30 then false
  else if motion_scores nrm (lastN h 90) = [] then false
  else decide (200 < mean_list (motion_scores nrm (lastN h 90)) ∧
               100 < var_list (motion_scores nrm (lastN h 90)) ∧
               500 < pose_instability nrm (lastN h 90))

/-- Claim C4: the fighting rule is a conjunction of all three sub-conditions;
in particular, whenever pose instability is at or below the fixed 500
constant, no fighting event is emitted, no matter how large the mean motion
and motion variance are. -/
theorem fighting_requires_all_three (nrm : ℚ × ℚ → ℚ) (h : List Frame) :
    (is_fighting nrm h = true →
      200 < mean_list (motion_scores nrm (lastN h 90)) ∧
      100 < var_list (motion_scores nrm (lastN h 90)) ∧
      500 < pose_instability nrm (lastN h 90)) ∧
    (pose_instability nrm (lastN h 90) ≤ 500 → is_fighting nrm h = false) := by
  constructor
  · intro hf
    unfold is_fighting at hf
    by_cases h1 : (h.length : ℚ) < 3 * 30
    · rw [if_pos h1] at hf
      simp at hf
    · rw [if_neg h1] at hf
      by_cases h2 : motion_scores nrm (lastN h 90) = []
      · rw [if_pos h2] at hf
        simp at hf
      · rw [if_neg h2, decide_eq_true_iff] at hf
        exact hf
  · intro hle
    unfold is_fighting
    by_cases h1 : (h.length : ℚ) < 3 * 30
    · rw [if_pos h1]
    · rw [if_neg h1]
      by_cases h2 : motion_scores nrm (lastN h 90) = []
      · rw [if_pos h2]
      · rw [if_neg h2]
        exact decide_eq_false (by rintro ⟨-, -, hgt⟩; linarith)

/-- A 17-keypoint frame whose only confident joint is the left shoulder
(index 5) at horizontal position `x`. -/
def fight_frame (x : ℚ) : Frame :=
  [⟨0,0,0⟩, ⟨0,0,0⟩, ⟨0,0,0⟩, ⟨0,0,0⟩, ⟨0,0,0⟩, ⟨x, 50, 1⟩, ⟨0,0,0⟩, ⟨0,0,0⟩,
   ⟨0,0,0⟩, ⟨0,0,0⟩, ⟨0,0,0⟩, ⟨0,0,0⟩, ⟨0,0,0⟩, ⟨0,0,0⟩, ⟨0,0,0⟩, ⟨0,0,0⟩, ⟨0,0,0⟩]

/-- A 3-frame window with upper-body displacements 280 then 320 px. -/
def fight_w : List Frame := [fight_frame 0, fight_frame 280, fight_frame 600]

theorem mean_list_pair (a b : ℚ) : mean_list [a, b] = (a + b) / 2 := by
  rw [mean_list, if_neg (by simp)]
  push_cast [List.sum_cons, List.sum_nil, List.length_cons, List.length_nil]
  ring

theorem var_list_pair (a b : ℚ) :
    var_list [a, b] = ((a - (a + b) / 2) ^ 2 + (b - (a + b) / 2) ^ 2) / 2 := by
  rw [var_list, mean_list_pair, List.map_cons, List.map_cons, List.map_nil,
    mean_list_pair]

/-- Witness for C4: on `fight_w` the mean motion (300) and motion variance
(400) exceed their thresholds while pose instability is 0 ≤ 500, and the
fighting rule does not fire. -/
theorem fighting_requires_all_three_witness :
    200 < mean_list (motion_scores axis_norm (lastN fight_w 90)) ∧
    100 < var_list (motion_scores axis_norm (lastN fight_w 90)) ∧
    pose_instability axis_norm (lastN fight_w 90) ≤ 500 ∧
    is_fighting axis_norm fight_w = false := by
  have hlast : lastN fight_w 90 = fight_w := by simp [lastN, fight_w]
  have hscores : motion_scores axis_norm fight_w = [280, 320] := by
    norm_num [motion_scores, frame_motion, upper_body_indices, kpAt, fight_w,
      fight_frame, axis_norm]
  have hmean : mean_list [(280 : ℚ), 320] = 300 := by rw [mean_list_pair]; norm_num
  have hvar : var_list [(280 : ℚ), 320] = 400 := by rw [var_list_pair]; norm_num
  have hinst : pose_instability axis_norm fight_w = 0 := by
    norm_num [pose_instability, pose_stability_scores, confident_kps, fight_w,
      fight_frame, mean_list]
  have hle : pose_instability axis_norm (lastN fight_w 90) ≤ 500 := by
    rw [hlast, hinst]
    norm_num
  refine ⟨?_, ?_, hle, (fighting_requires_all_three axis_norm fight_w).2 hle⟩
  · rw [hlast, hscores, hmean]
    norm_num
  · rw [hlast, hscores, hvar]
    norm_num

/-! ## Concealment (`_detect_concealment`, behavior_analysis.py 506-565,
rule 68-77).  The three proximity tests compare one Euclidean norm against a
positive constant each, so they are embedded as the equivalent squared
comparisons (`dist2_lt_iff_sqrt_lt`). -/

/-- Per-frame, per-wrist concealment increments (lines 518-548), as the
(pocket, waistband, jacket) triple.  `w`/`hip`/`sh` are the side's wrist, hip
and shoulder keypoint indices; the waistband center always uses both hips
(indices 11 and 12), as in the source. -/
def side_conceal (f : Frame) (w hip sh : ℕ) : ℕ × ℕ × ℕ :=
  if (0.5 : ℚ) < (kpAt f w).c ∧ (0.5 : ℚ) < (kpAt f hip).c ∧
     (0.5 : ℚ) < (kpAt f sh).c then
    ((if dist2 ((kpAt f w).x - (kpAt f hip).x, (kpAt f w).y - (kpAt f hip).y)
          < 40 ^ 2 then 1 else 0),
     (if dist2 ((kpAt f w).x - ((kpAt f 11).x + (kpAt f 12).x) / 2,
                (kpAt f w).y - ((kpAt f 11).y + (kpAt f 12).y) / 2)
          < (40 * 0.8) ^ 2 then 1 else 0),
     (if dist2 ((kpAt f w).x - (kpAt f sh).x,
                (kpAt f w).y - ((kpAt f sh).y + ((kpAt f hip).y - (kpAt f sh).y) * 0.6))
          < 40 ^ 2 then 1 else 0))
  else (0, 0, 0)

/-- Both wrists' increments for one frame: left (9, 11, 5) plus
right (10, 12, 6). -/
def frame_conceal (f : Frame) : ℕ × ℕ × ℕ :=
  ((side_conceal f 9 11 5).1 + (side_conceal f 10 12 6).1,
   (side_conceal f 9 11 5).2.1 + (side_conceal f 10 12 6).2.1,
   (side_conceal f 9 11 5).2.2 + (side_conceal f 10 12 6).2.2)

/-- Total pocket tally over the window. -/
def pocket_score (recent : List Frame) : ℕ :=
  (recent.map (fun f => (frame_conceal f).1)).sum

/-- Total waistband tally over the window. -/
def waistband_score (recent : List Frame) : ℕ :=
  (recent.map (fun f => (frame_conceal f).2.1)).sum

/-- Total jacket tally over the window. -/
def jacket_score (recent : List Frame) : ℕ :=
  (recent.map (fun f => (frame_conceal f).2.2)).sum

/-- The `bag` counter of line 512 is initialized but never incremented. -/
def bag_score (_ : List Frame) : ℕ := 0

/-- The dict returned by `_detect_concealment` on a detection. -/
structure ConcealRes where
  location : String
  confidence : ℚ
  duration : ℚ
deriving DecidableEq, Repr

/-- Tally of a location name over a window, following the
`concealment_scores` dict. -/
def conceal_score (recent : List Frame) : String → ℕ
  | "pocket" => pocket_score recent
  | "waistband" => waistband_score recent
  | "bag" => bag_score recent
  | "jacket" => jacket_score recent
  | _ => 0

/-- `_detect_concealment`: the window is the last
`int(concealment_duration_threshold * 30) = 90` frames,
`min_frames_required = int(3.0 * 30 * 0.6) = 54`, and the first location (in
the dict insertion order pocket, waistband, bag, jacket) whose tally strictly
exceeds 54 is returned, with confidence `min(score / len(recent), 1.0)` and
duration `score / 30`. -/
def detect_concealment (h : List Frame) : Option ConcealRes :=
  if 54 < pocket_score (lastN h 90) then
    some ⟨"pocket", min ((pocket_score (lastN h 90) : ℚ) / ((lastN h 90).length : ℚ)) 1,
          (pocket_score (lastN h 90) : ℚ) / 30⟩
  else if 54 < waistband_score (lastN h 90) then
    some ⟨"waistband", min ((waistband_score (lastN h 90) : ℚ) / ((lastN h 90).length : ℚ)) 1,
          (waistband_score (lastN h 90) : ℚ) / 30⟩
  else if 54 < bag_score (lastN h 90) then
    some ⟨"bag", min ((bag_score (lastN h 90) : ℚ) / ((lastN h 90).length : ℚ)) 1,
          (bag_score (lastN h 90) : ℚ) / 30⟩
  else if 54 < jacket_score (lastN h 90) then
    some ⟨"jacket", min ((jacket_score (lastN h 90) : ℚ) / ((lastN h 90).length : ℚ)) 1,
          (jacket_score (lastN h 90) : ℚ) / 30⟩
  else none

/-- Claim C6: the concealment detector emits an event iff some location's
tally exceeds 60% of the rule's 90-frame window (strictly more than 54
frames), and the emitted event names a location whose tally exceeds that
threshold, with confidence `tally / window length` capped at 1.0 and duration
`tally / 30`. -/
theorem concealment_fires_iff (h : List Frame) :
    ((detect_concealment h).isSome ↔
      (54 < pocket_score (lastN h 90) ∨ 54 < waistband_score (lastN h 90) ∨
       54 < jacket_score (lastN h 90))) ∧
    (∀ r, detect_concealment h = some r →
      54 < conceal_score (lastN h 90) r.location ∧
      r.confidence = min ((conceal_score (lastN h 90) r.location : ℚ) /
        ((lastN h 90).length : ℚ)) 1 ∧
      r.duration = (conceal_score (lastN h 90) r.location : ℚ) / 30) := by
  constructor
  · unfold detect_concealment
    by_cases hp : 54 < pocket_score (lastN h 90)
    · simp [hp]
    · by_cases hw : 54 < waistband_score (lastN h 90)
      · simp [hp, hw]
      · by_cases hj : 54 < jacket_score (lastN h 90)
        · simp [hp, hw, hj, bag_score]
        · simp [hp, hw, hj, bag_score]
  · intro r hr
    unfold detect_concealment at hr
    by_cases hp : 54 < pocket_score (lastN h 90)
    · rw [if_pos hp] at hr
      cases hr
      exact ⟨hp, rfl, rfl⟩
    · rw [if_neg hp] at hr
      by_cases hw : 54 < waistband_score (lastN h 90)
      · rw [if_pos hw] at hr
        cases hr
        exact ⟨hw, rfl, rfl⟩
      · rw [if_neg hw] at hr
        rw [if_neg (by simp [bag_score])] at hr
        by_cases hj : 54 < jacket_score (lastN h 90)
        · rw [if_pos hj] at hr
          cases hr
          exact ⟨hj, rfl, rfl⟩
        · rw [if_neg hj] at hr
          cases hr

/-- A frame whose left wrist sits exactly on the left hip (confident wrist,
hip and shoulder), with everything else at zero confidence. -/
def conceal_frame : Frame :=
  [⟨0,0,0⟩, ⟨0,0,0⟩, ⟨0,0,0⟩, ⟨0,0,0⟩, ⟨0,0,0⟩, ⟨100, 100, 1⟩, ⟨0,0,0⟩, ⟨0,0,0⟩,
   ⟨0,0,0⟩, ⟨100, 200, 1⟩, ⟨0,0,0⟩, ⟨100, 200, 1⟩, ⟨0,0,0⟩, ⟨0,0,0⟩, ⟨0,0,0⟩,
   ⟨0,0,0⟩, ⟨0,0,0⟩]

/-- A 90-frame hand-on-hip window. -/
def conceal_w : List Frame := List.replicate 90 conceal_frame

/-- Witness for C6: on `conceal_w` the pocket tally is 90 > 54 and the
detector emits the pocket event with confidence `min(90/90, 1) = 1` and
duration 3 s. -/
theorem concealment_fires_iff_witness :
    detect_concealment conceal_w = some ⟨"pocket", 1, 3⟩ ∧
    54 < conceal_score (lastN conceal_w 90) "pocket" ∧
    (ConcealRes.mk "pocket" 1 3).confidence =
      min ((conceal_score (lastN conceal_w 90) "pocket" : ℚ) /
        ((lastN conceal_w 90).length : ℚ)) 1 ∧
    (ConcealRes.mk "pocket" 1 3).duration =
      (conceal_score (lastN conceal_w 90) "pocket" : ℚ) / 30 := by
  have hfc : frame_conceal conceal_frame = (1, 0, 0) := by
    norm_num [frame_conceal, side_conceal, kpAt, conceal_frame, dist2]
  have hlast : lastN conceal_w 90 = conceal_w := by simp [lastN, conceal_w]
  have hps : pocket_score conceal_w = 90 := by
    simp [pocket_score, conceal_w, List.map_replicate, hfc]
  have hws : waistband_score conceal_w = 0 := by
    simp [waistband_score, conceal_w, List.map_replicate, hfc]
  have hjs : jacket_score conceal_w = 0 := by
    simp [jacket_score, conceal_w, List.map_replicate, hfc]
  have hdet : detect_concealment conceal_w = some ⟨"pocket", 1, 3⟩ := by
    unfold detect_concealment
    rw [hlast, hps, if_pos (by norm_num)]
    simp only [conceal_w, List.length_replicate]
    norm_num
  have h2 := (concealment_fires_iff conceal_w).2 ⟨"pocket", 1, 3⟩ hdet
  exact ⟨hdet, h2.1, h2.2.1, h2.2.2⟩

/-! ## Gait extractors (`_analyze_stride_length`, gait_detection.py 199-232;
`_analyze_step_frequency`, 271-303; gait joints 33-42: ankles are keypoints
15 and 16) -/

/-- Frames whose two ankle confidences are both above the 0.5 floor
(lines 206-209). -/
def stride_valid (kps : List Frame) : List Frame :=
  kps.filter (fun f =>
    decide ((0.5 : ℚ) < (kpAt f 15).c ∧ (0.5 : ℚ) < (kpAt f 16).c))

/-- `_analyze_stride_length`: fewer than 10 confident ankle frames returns the
zeroed two-key dict (line 211-212, which omits the range key); otherwise the
ankle-to-ankle distances, Savitzky-Golay smoothed when more than 5 samples,
report mean / variance / range.  The norm and the smoothing filter are
threaded as parameters (`nrm`, `smooth`); the defaults theorem holds for every
choice of both. -/
def analyze_stride_length (nrm : ℚ × ℚ → ℚ) (smooth : List ℚ → List ℚ)
    (kps : List Frame) : List (String × ℚ) :=
  if (stride_valid kps).length < 10 then
    [("stride_length_avg", 0), ("stride_length_var", 0)]
  else
    let ds := (stride_valid kps).map (fun f =>
      nrm ((kpAt f 15).x - (kpAt f 16).x, (kpAt f 15).y - (kpAt f 16).y))
    let ds2 := if 5 < ds.length then smooth ds else ds
    [("stride_length_avg", mean_list ds2),
     ("stride_length_var", var_list ds2),
     ("stride_length_range", max_list ds2 - min_list ds2)]

/-- `ankle_diff = left_ankle_x - right_ankle_x` per frame (lines 274-278; no
confidence gate in the source). -/
def ankle_diffs (kps : List Frame) : List ℚ :=
  kps.map (fun f => (kpAt f 15).x - (kpAt f 16).x)

/-- `np.signbit` of each difference (negative iff strictly below zero). -/
def signbits (l : List ℚ) : List Bool := l.map (fun d => decide (d < 0))

/-- `np.where(np.diff(np.signbit(...)))[0]`: the indices at which consecutive
sign bits differ. -/
def cross_indices (sb : List Bool) : List ℕ :=
  (List.range (sb.length - 1)).filter
    (fun i => decide (sb.getD i false ≠ sb.getD (i + 1) false))

/-- `_analyze_step_frequency`: fewer than 3 zero crossings returns the zeroed
two-key dict (lines 283-284, which omits the step-count key); otherwise
frequency `30 / mean(interval)` and regularity `1 / (1 + var(interval))`. -/
def analyze_step_frequency (kps : List Frame) : List (String × ℚ) :=
  if (cross_indices (signbits (ankle_diffs kps))).length < 3 then
    [("step_frequency", 0), ("step_regularity", 0)]
  else
    let crossings := cross_indices (signbits (ankle_diffs kps))
    let intervals := (crossings.zip crossings.tail).map
      (fun p => (p.2 : ℚ) - (p.1 : ℚ))
    [("step_frequency", if 0 < intervals.length then 30 / mean_list intervals else 0),
     ("step_regularity", if 0 < intervals.length then 1 / (1 + var_list intervals) else 0),
     ("step_count", (crossings.length : ℚ))]

/-- Claim C7: windows below an extractor's minimum -- fewer than 10 confident
ankle frames for stride analysis, fewer than 3 ankle-crossing sign changes for
step-frequency analysis -- return the documented zeroed defaults, for every
norm and smoothing function; the embedding is total, so no exception or NaN
can arise on this path. -/
theorem gait_extractors_default (nrm : ℚ × ℚ → ℚ) (smooth : List ℚ → List ℚ)
    (w1 w2 : List Frame)
    (h1 : (stride_valid w1).length < 10)
    (h2 : (cross_indices (signbits (ankle_diffs w2))).length < 3) :
    analyze_stride_length nrm smooth w1 =
      [("stride_length_avg", 0), ("stride_length_var", 0)] ∧
    analyze_step_frequency w2 =
      [("step_frequency", 0), ("step_regularity", 0)] := by
  constructor
  · unfold analyze_stride_length
    rw [if_pos h1]
  · unfold analyze_step_frequency
    rw [if_pos h2]

/-- Witness for C7: three all-zero-confidence frames have zero confident ankle
frames, five constant frames have zero sign crossings, and both extractors
return their zeroed defaults. -/
theorem gait_extractors_default_witness :
    (stride_valid (List.replicate 3 low_frame)).length < 10 ∧
    (cross_indices (signbits (ankle_diffs (List.replicate 5 low_frame)))).length < 3 ∧
    analyze_stride_length axis_norm id (List.replicate 3 low_frame) =
      [("stride_length_avg", 0), ("stride_length_var", 0)] ∧
    analyze_step_frequency (List.replicate 5 low_frame) =
      [("step_frequency", 0), ("step_regularity", 0)] := by
  have hv : (stride_valid (List.replicate 3 low_frame)).length < 10 :=
    lt_of_le_of_lt (List.length_filter_le _ _) (by simp)
  have hd : ankle_diffs (List.replicate 5 low_frame) = List.replicate 5 0 := by
    rw [ankle_diffs, List.map_replicate, low_frame,
      kpAt_replicate _ 15 (by norm_num), kpAt_replicate _ 16 (by norm_num)]
    norm_num
  have hs : signbits (List.replicate 5 (0 : ℚ)) = List.replicate 5 false := by
    rw [signbits, List.map_replicate]
    norm_num
  have hc : cross_indices (signbits (ankle_diffs (List.replicate 5 low_frame))) = [] := by
    rw [hd, hs]
    unfold cross_indices
    rw [List.filter_eq_nil_iff]
    intro i _
    have g : ∀ j, (List.replicate 5 false).getD j false = false := fun j => by
      rw [List.getD_eq_getElem?_getD, List.getElem?_replicate]
      split <;> rfl
    simp only [g]
    simp
  have hcl : (cross_indices (signbits (ankle_diffs (List.replicate 5 low_frame)))).length < 3 := by
    rw [hc]
    norm_num
  have hthm := gait_extractors_default axis_norm id
    (List.replicate 3 low_frame) (List.replicate 5 low_frame) hv hcl
  exact ⟨hv, hcl, hthm.1, hthm.2⟩

/-! ## Gait matching (`_match_gait_profile`, gait_detection.py 517-548;
signature generation 490-515).  sklearn's `cosine_similarity(a, b)` is
`dot(a, b) / (norm(a) * norm(b))`, an irrational-valued float; the loop is
embedded with the similarity function threaded as the parameter `cosSim`, and
the real cosine itself is characterized by the relation `CosineSimRel`. -/

/-- Dot product of two signature vectors. -/
def dotQ (a b : List ℚ) : ℚ := ((a.zip b).map (fun p => p.1 * p.2)).sum

/-- `CosineSimRel a b s` states that `s` is the cosine similarity of `a` and
`b`: `s * sqrt(a.a) * sqrt(b.b) = a.b`, i.e. `s = dot / (norm * norm)`.  For
nonzero vectors this pins `s` uniquely. -/
def CosineSimRel (a b : List ℚ) (s : ℚ) : Prop :=
  (s : ℝ) * Real.sqrt ((dotQ a a : ℚ) : ℝ) * Real.sqrt ((dotQ b b : ℚ) : ℝ) =
    ((dotQ a b : ℚ) : ℝ)

theorem dotQ_self_nonneg (v : List ℚ) : 0 ≤ dotQ v v := by
  induction v with
  | nil => simp [dotQ]
  | cons a t ih =>
    have h : dotQ (a :: t) (a :: t) = a * a + dotQ t t := rfl
    rw [h]
    nlinarith [mul_self_nonneg a]

theorem cosine_self_one (v : List ℚ) : CosineSimRel v v 1 := by
  unfold CosineSimRel
  push_cast
  rw [one_mul, Real.mul_self_sqrt (by exact_mod_cast dotQ_self_nonneg v)]

/-- A known gait profile as stored in `self.gait_profiles`. -/
structure GaitProfile where
  name : String
  embeddings : List ℚ
  confidence : ℚ
deriving DecidableEq, Repr

/-- The best-match dict built at lines 537-542. -/
structure GaitMatch where
  person_id : String
  name : String
  confidence : ℚ
  profile_confidence : ℚ
deriving DecidableEq, Repr

/-- The profile loop of `_match_gait_profile` (lines 526-544): iterate the
profiles, keeping the candidate whenever its similarity exceeds both the 0.7
floor and the best similarity so far (initially 0). -/
def match_go (cosSim : List ℚ → List ℚ → ℚ) (query : List ℚ) :
    List (String × GaitProfile) → Option GaitMatch → ℚ → Option GaitMatch
  | [], best, _ => best
  | (pid, pr) :: rest, best, bestSim =>
    if (0.7 : ℚ) < cosSim query pr.embeddings ∧ bestSim < cosSim query pr.embeddings
    then match_go cosSim query rest
      (some ⟨pid, pr.name, cosSim query pr.embeddings, pr.confidence⟩)
      (cosSim query pr.embeddings)
    else match_go cosSim query rest best bestSim

/-- `_match_gait_profile`: empty profile store returns None, otherwise the
loop starting from no best match and best similarity 0. -/
def match_gait_profile (cosSim : List ℚ → List ℚ → ℚ) (query : List ℚ)
    (profiles : List (String × GaitProfile)) : Option GaitMatch :=
  if profiles = [] then none else match_go cosSim query profiles none 0

theorem match_go_inv (cosSim : List ℚ → List ℚ → ℚ) (query : List ℚ) :
    ∀ (ps : List (String × GaitProfile)) (best : Option GaitMatch) (bs : ℚ),
      ((best = none ∧ bs = 0) ∨
        (∃ m0, best = some m0 ∧ bs = m0.confidence ∧ (0.7 : ℚ) < bs)) →
      ∀ m, match_go cosSim query ps best bs = some m →
        (0.7 : ℚ) < m.confidence ∧ bs ≤ m.confidence ∧
        (∀ x ∈ ps, cosSim query x.2.embeddings ≤ 0.7 ∨
          cosSim query x.2.embeddings ≤ m.confidence) ∧
        (best = some m ∨ ∃ x ∈ ps,
          m = ⟨x.1, x.2.name, cosSim query x.2.embeddings, x.2.confidence⟩) := by
  intro ps
  induction ps with
  | nil =>
    intro best bs H m hm
    simp only [match_go] at hm
    rcases H with ⟨hbn, -⟩ | ⟨m0, hb, hbs, hlt⟩
    · rw [hbn] at hm
      cases hm
    · rw [hb] at hm
      obtain rfl : m0 = m := Option.some.inj hm
      exact ⟨hbs ▸ hlt, le_of_eq hbs, by simp, Or.inl hb⟩
  | cons hd rest ih =>
    intro best bs H m hm
    obtain ⟨pid, pr⟩ := hd
    simp only [match_go] at hm
    by_cases hcond : (0.7 : ℚ) < cosSim query pr.embeddings ∧
        bs < cosSim query pr.embeddings
    · rw [if_pos hcond] at hm
      have IH := ih (some ⟨pid, pr.name, cosSim query pr.embeddings, pr.confidence⟩)
        (cosSim query pr.embeddings)
        (Or.inr ⟨⟨pid, pr.name, cosSim query pr.embeddings, pr.confidence⟩,
          rfl, rfl, hcond.1⟩) m hm
      refine ⟨IH.1, le_trans (le_of_lt hcond.2) IH.2.1, fun x hx => ?_, ?_⟩
      · rcases List.mem_cons.mp hx with rfl | hxr
        · exact Or.inr IH.2.1
        · exact IH.2.2.1 x hxr
      · rcases IH.2.2.2 with hbm | ⟨x, hx, hxm⟩
        · exact Or.inr ⟨(pid, pr), List.mem_cons_self _ _, (Option.some.inj hbm).symm⟩
        · exact Or.inr ⟨x, List.mem_cons_of_mem _ hx, hxm⟩
    · rw [if_neg hcond] at hm
      have IH := ih best bs H m hm
      refine ⟨IH.1, IH.2.1, fun x hx => ?_, ?_⟩
      · rcases List.mem_cons.mp hx with rfl | hxr
        · by_cases hs : (0.7 : ℚ) < cosSim query pr.embeddings
          · refine Or.inr (le_trans ?_ IH.2.1)
            exact le_of_not_lt (fun hbslt => hcond ⟨hs, hbslt⟩)
          · exact Or.inl (le_of_not_lt hs)
        · exact IH.2.2.1 x hxr
      · rcases IH.2.2.2 with hbm | ⟨x, hx, hxm⟩
        · exact Or.inl hbm
        · exact Or.inr ⟨x, List.mem_cons_of_mem _ hx, hxm⟩

theorem match_go_some (cosSim : List ℚ → List ℚ → ℚ) (query : List ℚ) :
    ∀ (ps : List (String × GaitProfile)) (m0 : GaitMatch) (bs : ℚ),
      (match_go cosSim query ps (some m0) bs).isSome := by
  intro ps
  induction ps with
  | nil => intro m0 bs; simp [match_go]
  | cons hd rest ih =>
    intro m0 bs
    obtain ⟨pid, pr⟩ := hd
    simp only [match_go]
    by_cases hcond : (0.7 : ℚ) < cosSim query pr.embeddings ∧
        bs < cosSim query pr.embeddings
    · rw [if_pos hcond]; exact ih _ _
    · rw [if_neg hcond]; exact ih _ _

theorem match_go_hit (cosSim : List ℚ → List ℚ → ℚ) (query : List ℚ) :
    ∀ (ps : List (String × GaitProfile)) (best : Option GaitMatch) (bs : ℚ),
      (∃ x ∈ ps, (0.7 : ℚ) < cosSim query x.2.embeddings ∧
        bs < cosSim query x.2.embeddings) →
      (match_go cosSim query ps best bs).isSome := by
  intro ps
  induction ps with
  | nil =>
    rintro best bs ⟨x, hx, -⟩
    simp at hx
  | cons hd rest ih =>
    rintro best bs ⟨x, hx, hs1, hs2⟩
    obtain ⟨pid, pr⟩ := hd
    simp only [match_go]
    by_cases hcond : (0.7 : ℚ) < cosSim query pr.embeddings ∧
        bs < cosSim query pr.embeddings
    · rw [if_pos hcond]; exact match_go_some cosSim query rest _ _
    · rw [if_neg hcond]
      rcases List.mem_cons.mp hx with rfl | hxr
      · exact absurd ⟨hs1, hs2⟩ hcond
      · exact ih best bs ⟨x, hxr, hs1, hs2⟩

theorem match_go_stay (cosSim : List ℚ → List ℚ → ℚ) (query : List ℚ) :
    ∀ (ps : List (String × GaitProfile)) (best : Option GaitMatch) (bs : ℚ),
      (∀ x ∈ ps, cosSim query x.2.embeddings ≤ 0.7) →
      match_go cosSim query ps best bs = best := by
  intro ps
  induction ps with
  | nil => intro best bs _; rfl
  | cons hd rest ih =>
    intro best bs hall
    obtain ⟨pid, pr⟩ := hd
    simp only [match_go]
    rw [if_neg]
    · exact ih best bs (fun x hx => hall x (List.mem_cons_of_mem _ hx))
    · rintro ⟨h1, -⟩
      exact absurd h1 (not_lt.mpr (hall (pid, pr) (List.mem_cons_self _ _)))

/-- Claim C8: gait matching against a profile store.  For any similarity
function realizing the cosine: (i) the real cosine similarity of a stored
nonzero signature with itself is exactly 1 (`CosineSimRel`, pinned uniquely by
the nonzero hypothesis); (ii) when the query is a profile's own stored
signature, its similarity is 1 and every other profile's is strictly below,
that profile is selected as the best match with confidence 1; (iii) any
returned match has similarity strictly above the 0.7 floor and at least every
profile's similarity (highest among those above the floor); (iv) if no
similarity exceeds 0.7, no match is returned. -/
theorem gait_matching_spec (cosSim : List ℚ → List ℚ → ℚ) (query : List ℚ)
    (profiles : List (String × GaitProfile)) (pid : String) (pr : GaitProfile)
    (hmem : (pid, pr) ∈ profiles)
    (_hq : query = pr.embeddings)
    (hnz : dotQ query query ≠ 0)
    (hself : cosSim query pr.embeddings = 1)
    (hothers : ∀ x ∈ profiles, x ≠ (pid, pr) → cosSim query x.2.embeddings < 1) :
    CosineSimRel query query 1 ∧
    (∀ s : ℚ, CosineSimRel query query s → s = 1) ∧
    match_gait_profile cosSim query profiles = some ⟨pid, pr.name, 1, pr.confidence⟩ ∧
    (∀ ps (m : GaitMatch), match_gait_profile cosSim query ps = some m →
      (0.7 : ℚ) < m.confidence ∧
      ∀ x ∈ ps, cosSim query x.2.embeddings ≤ m.confidence) ∧
    (∀ ps : List (String × GaitProfile),
      (∀ x ∈ ps, cosSim query x.2.embeddings ≤ 0.7) →
      match_gait_profile cosSim query ps = none) := by
  have hps : profiles ≠ [] := by
    rintro rfl
    simp at hmem
  refine ⟨cosine_self_one query, ?_, ?_, ?_, ?_⟩
  · intro s hs
    unfold CosineSimRel at hs
    rw [mul_assoc,
      Real.mul_self_sqrt (by exact_mod_cast dotQ_self_nonneg query)] at hs
    have hd0 : ((dotQ query query : ℚ) : ℝ) ≠ 0 := by exact_mod_cast hnz
    have : (s : ℝ) = 1 := by
      have := mul_right_cancel₀ hd0 (hs.trans (one_mul _).symm)
      exact this
    exact_mod_cast this
  · unfold match_gait_profile
    rw [if_neg hps]
    have hsome := match_go_hit cosSim query profiles none 0
      ⟨(pid, pr), hmem, by rw [hself]; norm_num, by rw [hself]; norm_num⟩
    obtain ⟨m, hm⟩ := Option.isSome_iff_exists.mp hsome
    have INV := match_go_inv cosSim query profiles none 0 (Or.inl ⟨rfl, rfl⟩) m hm
    have h1le : (1 : ℚ) ≤ m.confidence := by
      rcases INV.2.2.1 (pid, pr) hmem with hle | hle
      · rw [hself] at hle
        norm_num at hle
      · rw [hself] at hle
        exact hle
    rcases INV.2.2.2 with hcontr | ⟨x, hx, hxm⟩
    · cases hcontr
    · by_cases hxe : x = (pid, pr)
      · subst hxe
        rw [hself] at hxm
        rw [hm, hxm]
      · exfalso
        have hlt := hothers x hx hxe
        rw [hxm] at h1le
        simp only at h1le
        linarith
  · intro ps m hm
    unfold match_gait_profile at hm
    by_cases hpe : ps = []
    · rw [if_pos hpe] at hm
      cases hm
    · rw [if_neg hpe] at hm
      have INV := match_go_inv cosSim query ps none 0 (Or.inl ⟨rfl, rfl⟩) m hm
      refine ⟨INV.1, fun x hx => ?_⟩
      rcases INV.2.2.1 x hx with h | h
      · exact le_trans h (le_of_lt INV.1)
      · exact h
  · intro ps hall
    unfold match_gait_profile
    by_cases hpe : ps = []
    · rw [if_pos hpe]
    · rw [if_neg hpe]
      exact match_go_stay cosSim query ps none 0 hall

/-- An 8-entry signature vector as produced by `_generate_gait_signature`. -/
def gait_sig : List ℚ := [1, 0, 0, 0, 0, 0, 0, 0]

/-- A single stored gait profile with `gait_sig` as its embedding. -/
def alice_profile : GaitProfile := ⟨"alice", gait_sig, 0.9⟩

/-- Witness for C8: matching `gait_sig` against its own single-profile store
under the exact-equality similarity (which realizes cosine similarity 1 on
the self pair) selects that profile with confidence 1. -/
theorem gait_matching_spec_witness :
    CosineSimRel gait_sig gait_sig 1 ∧
    (∀ s : ℚ, CosineSimRel gait_sig gait_sig s → s = 1) ∧
    match_gait_profile (fun a b => if a = b then 1 else 0) gait_sig
      [("person_1", alice_profile)] = some ⟨"person_1", "alice", 1, 0.9⟩ ∧
    (∀ ps (m : GaitMatch),
      match_gait_profile (fun a b => if a = b then 1 else 0) gait_sig ps = some m →
      (0.7 : ℚ) < m.confidence ∧
      ∀ x ∈ ps, (fun a b => if a = b then (1 : ℚ) else 0) gait_sig x.2.embeddings ≤
        m.confidence) ∧
    (∀ ps : List (String × GaitProfile),
      (∀ x ∈ ps, (fun a b => if a = b then (1 : ℚ) else 0) gait_sig x.2.embeddings ≤ 0.7) →
      match_gait_profile (fun a b => if a = b then 1 else 0) gait_sig ps = none) :=
  gait_matching_spec (fun a b => if a = b then 1 else 0) gait_sig
    [("person_1", alice_profile)] "person_1" alice_profile
    (by simp)
    rfl
    (by norm_num [dotQ, gait_sig])
    (by simp [alice_profile])
    (by
      intro x hx hne
      simp only [List.mem_singleton] at hx
      exact absurd hx hne)

/-- Witness for C1 (amended claim) at the concrete 130-frame stationary
history: instantiating the iff shows the single-event equality holds exactly
when the 3600-frame gate and both thresholds do. -/
theorem loitering_fires_iff_witness :
    loitering_events axis_norm "camera_1_person_0" (List.replicate 130 confident_frame) =
      [loitering_event "camera_1_person_0" (List.replicate 130 confident_frame)] ↔
    ((120 * 30 : ℚ) ≤ (List.replicate 130 confident_frame).length ∧
      avg_movement axis_norm (List.replicate 130 confident_frame) < 50 ∧
      total_variance (List.replicate 130 confident_frame) < 30) :=
  loitering_fires_iff axis_norm "camera_1_person_0" (List.replicate 130 confident_frame)
